import Mathlib

/-!
Shallow embedding of the hospital-management backend (`backend/app.py`):
a Flask JSON API over six relational tables.  Rows are Lean structures,
the database is a record of row lists, SQL statements become list
operations (filter / sort / append / map), and each endpoint handler is
a Lean function mirroring the Python control flow line by line.

Conventions of the embedding:
  * `pyodbc` result columns are typed as in the store: date/datetime
    columns that the handlers render unconditionally with `str(...)`
    are carried as their canonical `String` form; the nullable
    `Patient.date_of_birth` column is `Option DateV` so that Python
    truthiness on the fetched value is visible; `Billing.amount`
    (a SQL decimal) is `Option Rat`.
  * Query-string arguments (`request.args.get`) are `Option String`
    (`none` = absent); Python truthiness of such a value is false
    exactly for `None` and the empty string.
  * JSON body fields are `JField α`: absent, JSON null, or a value;
    Python `data.get(k)` collapses absent and null to `None`.
  * `int(s)` on a string is modelled by `pyInt` (sign and digits),
    raising (`Except.error`) on non-numeric input; the handler's
    blanket `except Exception` turns a raised error into an HTTP 500
    response.
  * `bcrypt.checkpw` is an abstract parameter of the login handler.
  * A dynamic WHERE clause is what the code builds: a list of predicate
    shapes plus a separate, parallel list of positional parameters; its
    evaluation consumes the parameters strictly in order.
-/

/-- A calendar date as stored in the `Patient.date_of_birth` column.
A fetched date object is always truthy in Python; only SQL NULL maps to
a falsy `None`. -/
structure DateV where
  year : Nat
  month : Nat
  day : Nat
deriving DecidableEq, Repr

/-- `str(...)` on a fetched date: its canonical text form. -/
def dateStr (d : DateV) : String :=
  toString d.year ++ "-" ++ toString d.month ++ "-" ++ toString d.day

/-- A row of `dbo.Patient`. -/
structure PatientRow where
  patient_id : Int
  name : String
  date_of_birth : Option DateV
  gender : Option String
  address : Option String
  phone : Option String
deriving DecidableEq, Repr

/-- A row of `dbo.Doctor`. -/
structure DoctorRow where
  doctor_id : Int
  name : String
  specialty : Option String
  phone : Option String
  email : Option String
deriving DecidableEq, Repr

/-- A row of `dbo.Appointment`.  The `appointment_date` column is
always present and carried as its canonical string form, which the
handlers render with an unconditional `str(...)`. -/
structure ApptRow where
  appointment_id : Int
  patient_id : Int
  doctor_id : Int
  appointment_date : String
  reason : Option String
deriving DecidableEq, Repr

/-- A row of `dbo.Treatment`. -/
structure TreatRow where
  treatment_id : Int
  appointment_id : Int
  diagnosis : Option String
  prescription : Option String
  notes : Option String
deriving DecidableEq, Repr

/-- A row of `dbo.Billing`.  `amount` is a nullable SQL decimal. -/
structure BillRow where
  bill_id : Int
  patient_id : Int
  treatment_id : Option Int
  amount : Option Rat
  payment_status : String
  billing_date : String
deriving DecidableEq, Repr

/-- A row of `dbo.AppUser`. -/
structure AppUserRow where
  username : String
  password_hash : String
  full_name : String
  role : String
deriving DecidableEq, Repr

/-- The relational store.  `nextApptId` models the identity column
read back through `SCOPE_IDENTITY()` after an insert. -/
structure DB where
  patients : List PatientRow
  doctors : List DoctorRow
  appointments : List ApptRow
  treatments : List TreatRow
  billing : List BillRow
  users : List AppUserRow
  nextApptId : Int
deriving DecidableEq, Repr

def emptyDB : DB :=
  { patients := [], doctors := [], appointments := [], treatments := [],
    billing := [], users := [], nextApptId := 1 }

/-! ### Login (`POST /login`, app.py lines 59-96) -/

/-- The `user` object of a successful login response: exactly the three
columns the handler copies out of the row.  The structure has no field
for the password hash, so a response of this shape cannot carry it. -/
structure LoginUser where
  username : String
  full_name : String
  role : String
deriving DecidableEq, Repr

/-- Outcome of the login handler: HTTP 200 with a user profile, or an
error status with a message. -/
inductive LoginResp
  | success (user : LoginUser)
  | failure (status : Nat) (message : String)
deriving DecidableEq, Repr

/-- `POST /login`: look the username up (`fetchone` returns the first
matching row), then verify the submitted password against the stored
hash with `bcrypt.checkpw` (abstracted as `checkpw`). -/
def login (users : List AppUserRow) (checkpw : String → String → Bool)
    (username password : String) : LoginResp :=
  match users.find? (fun u => u.username == username) with
  | none => .failure 401 "User not found"
  | some u =>
    if checkpw password u.password_hash then
      .success { username := u.username, full_name := u.full_name, role := u.role }
    else
      .failure 401 "Invalid password"

/-! ### Dynamic WHERE-clause builder (list endpoints)

The list handlers build two parallel lists: predicate shapes (`where`)
and positional parameters (`params`), each `if <filter>:` appending one
entry to both.  `?` placeholders are bound to the parameters strictly
in order of appearance. -/

/-- A positional SQL parameter as the handlers append it. -/
inductive Param
  | pint (n : Int)
  | pstr (s : String)
deriving DecidableEq, Repr

/-- Python truthiness of a `request.args.get` result: `None` and the
empty string are falsy, every other string truthy. -/
def truthy : Option String → Bool
  | none => false
  | some s => !(s == "")

/-- Accumulate decimal digits; any non-digit character fails. -/
def pyDigitsAux : List Char → Nat → Option Nat
  | [], acc => some acc
  | c :: cs, acc =>
    if c.isDigit then pyDigitsAux cs (acc * 10 + (c.toNat - 48)) else none

/-- Python `int(s)` on the character list of `s`: an optional sign
followed by at least one decimal digit (whitespace trimming and digit
group separators of the full Python grammar are not modelled; the
filters in question carry plain numerals). -/
def pyIntCore : List Char → Option Int
  | [] => none
  | c :: rest =>
    if c = '-' then
      match rest with
      | [] => none
      | _ => (pyDigitsAux rest 0).map fun n => -(n : Int)
    else if c = '+' then
      match rest with
      | [] => none
      | _ => (pyDigitsAux rest 0).map fun n => (n : Int)
    else (pyDigitsAux (c :: rest) 0).map fun n => (n : Int)

/-- Python `int(s)`: `none` models the raised `ValueError`. -/
def pyInt (s : String) : Option Int := pyIntCore s.data

/-- One `if <arg>:` block appending an integer-valued predicate: parse
with `int(...)` (raises on non-numeric input) and append one predicate
shape and one parameter. -/
def intClause {π : Type} (p : π) (arg : Option String) :
    Except String (List π × List Param) :=
  if truthy arg then
    match pyInt (arg.getD "") with
    | some n => .ok ([p], [.pint n])
    | none => .error ("invalid literal for int() with base 10: " ++ arg.getD "")
  else .ok ([], [])

/-- One `if <arg>:` block appending a string-valued predicate (date
bounds, payment status): the raw string is bound as the parameter. -/
def strClause {π : Type} (p : π) (arg : Option String) :
    List π × List Param :=
  if truthy arg then ([p], [.pstr (arg.getD "")]) else ([], [])

/-- Evaluate a WHERE clause on one row: predicates consume the
positional parameters strictly in order; a leftover or ill-typed
parameter is a malformed query (`none`). -/
def evalPreds {π ρ : Type} (e1 : π → Param → ρ → Option Bool) :
    List π → List Param → ρ → Option Bool
  | [], [], _ => some true
  | p :: w, v :: vs, r =>
    (e1 p v r).bind fun b => (evalPreds e1 w vs r).map fun c => b && c
  | _, _, _ => none

/-- The value a supplied-and-non-empty integer filter contributes, if
any: `none` when the filter is absent or empty. -/
def intFilterVal (o : Option String) : Option Int :=
  match o with
  | none => none
  | some s => if s == "" then none else pyInt s

/-- The value a supplied-and-non-empty string filter contributes. -/
def strFilterVal (o : Option String) : Option String :=
  match o with
  | none => none
  | some s => if s == "" then none else some s

/-- A recognized integer filter is valid when absent, empty, or
numeric. -/
def validIntFilter : Option String → Bool
  | none => true
  | some s => (s == "") || (pyInt s).isSome

/-! ### Fixed per-resource result orders

SQL Server compares the datetime sort columns chronologically; on
their canonical string forms this is code-point lexicographic
comparison, written out here as a computable order. -/

/-- Lexicographic less-or-equal on character lists, by code point. -/
def lexLeb : List Char → List Char → Bool
  | [], _ => true
  | _ :: _, [] => false
  | a :: as, b :: bs =>
    if a.toNat < b.toNat then true
    else if b.toNat < a.toNat then false
    else lexLeb as bs

/-- Lexicographic less-or-equal on strings. -/
def strLeb (a b : String) : Bool := lexLeb a.data b.data

theorem lexLeb_total : ∀ as bs : List Char,
    lexLeb as bs = true ∨ lexLeb bs as = true := by
  intro as
  induction as with
  | nil => intro bs; exact Or.inl rfl
  | cons a as ih =>
    intro bs
    cases bs with
    | nil => exact Or.inr rfl
    | cons b bs =>
      simp only [lexLeb]
      rcases Nat.lt_trichotomy a.toNat b.toNat with h | h | h
      · simp [h]
      · rcases ih bs with h2 | h2 <;> simp [h, h2]
      · simp [h, Nat.lt_asymm h]

theorem lexLeb_antisymm : ∀ as bs : List Char,
    lexLeb as bs = true → lexLeb bs as = true → as = bs := by
  intro as
  induction as with
  | nil =>
    intro bs h1 h2
    cases bs with
    | nil => rfl
    | cons b bs => simp [lexLeb] at h2
  | cons a as ih =>
    intro bs h1 h2
    cases bs with
    | nil => simp [lexLeb] at h1
    | cons b bs =>
      simp only [lexLeb] at h1 h2
      split_ifs at h1 h2 with g1 g2 <;>
        first
          | (exfalso; omega)
          | simp at h1
          | simp at h2
          | (have hn : a.toNat = b.toNat := by omega
             have hc : a = b := Char.eq_of_val_eq (UInt32.ext hn)
             rw [hc, ih bs h1 h2])

theorem lexLeb_trans : ∀ as bs cs : List Char,
    lexLeb as bs = true → lexLeb bs cs = true → lexLeb as cs = true := by
  intro as
  induction as with
  | nil => intro bs cs _ _; rfl
  | cons a as ih =>
    intro bs cs h1 h2
    cases bs with
    | nil => simp [lexLeb] at h1
    | cons b bs =>
      cases cs with
      | nil => simp [lexLeb] at h2
      | cons c cs =>
        simp only [lexLeb] at h1 h2 ⊢
        split_ifs at h1 h2 ⊢ with g1 g2 g3 g4 g5 g6 <;> try omega
        all_goals first
          | rfl
          | simp at h1
          | simp at h2
          | exact ih bs cs h1 h2

theorem strLeb_total (a b : String) :
    strLeb a b = true ∨ strLeb b a = true :=
  lexLeb_total a.data b.data

theorem strLeb_antisymm {a b : String}
    (h1 : strLeb a b = true) (h2 : strLeb b a = true) : a = b := by
  have hd : a.data = b.data := lexLeb_antisymm a.data b.data h1 h2
  cases a
  cases b
  exact congrArg String.mk hd

theorem strLeb_trans {a b c : String}
    (h1 : strLeb a b = true) (h2 : strLeb b c = true) :
    strLeb a c = true :=
  lexLeb_trans a.data b.data c.data h1 h2

/-- Descending order on a (sort column, id) key:
`ORDER BY k1 DESC, k2 DESC`. -/
def descPairB (x y : String × Int) : Bool :=
  if x.1 == y.1 then decide (y.2 ≤ x.2) else strLeb y.1 x.1

theorem descPairB_total (x y : String × Int) :
    descPairB x y = true ∨ descPairB y x = true := by
  unfold descPairB
  by_cases h : x.1 = y.1
  · rcases Int.le_total y.2 x.2 with h2 | h2 <;>
      simp [beq_iff_eq, h, h2]
  · have h' : ¬ y.1 = x.1 := fun e => h e.symm
    simp only [beq_iff_eq, h, h', if_false]
    exact strLeb_total y.1 x.1

theorem descPairB_trans {x y z : String × Int}
    (h1 : descPairB x y = true) (h2 : descPairB y z = true) :
    descPairB x z = true := by
  unfold descPairB at h1 h2 ⊢
  by_cases e1 : x.1 = y.1 <;> by_cases e2 : y.1 = z.1
  · have e3 : x.1 = z.1 := e1.trans e2
    simp only [beq_iff_eq, e1, e2, e3, if_true] at h1 h2 ⊢
    simp only [decide_eq_true_eq] at h1 h2 ⊢
    omega
  · have e3 : ¬ x.1 = z.1 := fun e => e2 (e1.symm.trans e)
    simp only [beq_iff_eq, e1, e2, e3, if_true, if_false] at h1 h2 ⊢
    exact h2
  · have e3 : ¬ x.1 = z.1 := fun e => e1 (e.trans e2.symm)
    simp only [beq_iff_eq, e1, e2, e3, if_true, if_false] at h1 h2 ⊢
    exact h1
  · simp only [beq_iff_eq, e1, e2, if_false] at h1 h2
    by_cases e3 : x.1 = z.1
    · exfalso
      rw [← e3] at h2
      exact e1 (strLeb_antisymm h2 h1)
    · simp only [beq_iff_eq, e3, if_false]
      exact strLeb_trans h2 h1

/-! ### List responses and row mappers -/

/-- Outcome of a list endpoint: a JSON array, or an error status with a
message (the blanket handler maps any raised error to 500). -/
inductive ListResp (α : Type)
  | ok (rows : List α)
  | fail (status : Nat) (message : String)
deriving DecidableEq, Repr

/-- JSON record of `GET /patients` (app.py lines 114-123):
`date_of_birth` is `str(r[2]) if r[2] else None`. -/
structure PatientJson where
  patient_id : Int
  name : String
  date_of_birth : Option String
  gender : Option String
  address : Option String
  phone : Option String
deriving DecidableEq, Repr

def mapPatientRow (r : PatientRow) : PatientJson :=
  { patient_id := r.patient_id
    name := r.name
    date_of_birth := match r.date_of_birth with
      | some d => some (dateStr d)
      | none => none
    gender := r.gender
    address := r.address
    phone := r.phone }

/-- `GET /patients` result row order: `ORDER BY patient_id` (ascending). -/
def patientOrd (a b : PatientRow) : Prop := a.patient_id ≤ b.patient_id

instance : DecidableRel patientOrd := fun _ _ => by
  unfold patientOrd; infer_instance

instance : IsTotal PatientRow patientOrd := ⟨fun a b => le_total a.patient_id b.patient_id⟩

instance : IsTrans PatientRow patientOrd := ⟨fun _ _ _ => le_trans⟩

/-- `GET /patients` (app.py lines 101-126), with the cursor-execute
step allowed to raise (`execRaises`).  Returns the response together
with whether `conn.close()` ran before the handler returned: the
`except` branch returns the 500 response without closing. -/
def get_patients (db : DB) (execRaises : Bool) :
    ListResp PatientJson × Bool :=
  if execRaises then (.fail 500 "Server Error", false)
  else (.ok ((List.insertionSort patientOrd db.patients).map mapPatientRow), true)

/-! ### `GET /appointments` (app.py lines 160-227) -/

/-- One result row of the appointment list query: `Appointment` joined
with `Patient` and `Doctor` for the two names. -/
structure ApptJoined where
  appointment_id : Int
  appointment_date : String
  reason : Option String
  patient_id : Int
  patient_name : String
  doctor_id : Int
  doctor_name : String
deriving DecidableEq, Repr

/-- The `FROM ... JOIN ... JOIN ...` of the appointment queries: one
output row per appointment row and matching patient and doctor rows. -/
def joinAppts (db : DB) : List ApptJoined :=
  db.appointments.flatMap fun a =>
    (db.patients.filter fun p => p.patient_id == a.patient_id).flatMap fun p =>
      (db.doctors.filter fun d => d.doctor_id == a.doctor_id).map fun d =>
        { appointment_id := a.appointment_id
          appointment_date := a.appointment_date
          reason := a.reason
          patient_id := p.patient_id
          patient_name := p.name
          doctor_id := d.doctor_id
          doctor_name := d.name }

/-- The predicate shapes `get_appointments` can append. -/
inductive ApptPred
  | patEq
  | docEq
  | dateGe
  | dateLe
deriving DecidableEq, Repr

/-- `a.patient_id = ?`, `a.doctor_id = ?`, `a.appointment_date >= ?`,
`a.appointment_date <= ?`, each against one positional parameter. -/
def evalApptPred : ApptPred → Param → ApptJoined → Option Bool
  | .patEq, .pint n, r => some (r.patient_id == n)
  | .docEq, .pint n, r => some (r.doctor_id == n)
  | .dateGe, .pstr s, r => some (strLeb s r.appointment_date)
  | .dateLe, .pstr s, r => some (strLeb r.appointment_date s)
  | _, _, _ => none

/-- The WHERE builder of `get_appointments`: four `if` blocks in source
order (patient, doctor, from, to), the first raising `int(...)`
aborting the rest. -/
def buildApptWhere (pid did dfrom dto : Option String) :
    Except String (List ApptPred × List Param) :=
  match intClause .patEq pid with
  | .error e => .error e
  | .ok c1 =>
    match intClause .docEq did with
    | .error e => .error e
    | .ok c2 =>
      let c3 := strClause .dateGe dfrom
      let c4 := strClause .dateLe dto
      .ok (c1.1 ++ c2.1 ++ c3.1 ++ c4.1, c1.2 ++ c2.2 ++ c3.2 ++ c4.2)

/-- `ORDER BY a.appointment_date DESC, a.appointment_id DESC`. -/
def apptOrd (a b : ApptJoined) : Prop :=
  descPairB (a.appointment_date, a.appointment_id)
    (b.appointment_date, b.appointment_id) = true

instance : DecidableRel apptOrd := fun _ _ => by
  unfold apptOrd; infer_instance

instance : IsTotal ApptJoined apptOrd := ⟨fun _ _ => descPairB_total _ _⟩

instance : IsTrans ApptJoined apptOrd := ⟨fun _ _ _ => descPairB_trans⟩

/-- JSON record of an appointment list row (also the shape built by
`_appointment_row_to_json`): `str(...)` on the datetime column is its
canonical string form. -/
structure ApptJson where
  appointment_id : Int
  appointment_date : String
  reason : Option String
  patient_id : Int
  patient_name : String
  doctor_id : Int
  doctor_name : String
deriving DecidableEq, Repr

def mapApptJoined (r : ApptJoined) : ApptJson :=
  { appointment_id := r.appointment_id
    appointment_date := r.appointment_date
    reason := r.reason
    patient_id := r.patient_id
    patient_name := r.patient_name
    doctor_id := r.doctor_id
    doctor_name := r.doctor_name }

/-- `GET /appointments`: build the WHERE clause (a raised `int(...)`
error becomes a 500), filter the joined rows by positional evaluation,
sort by the fixed order, and map to JSON. -/
def get_appointments (db : DB) (pid did dfrom dto : Option String) :
    ListResp ApptJson :=
  match buildApptWhere pid did dfrom dto with
  | .error e => .fail 500 ("Server Error: " ++ e)
  | .ok wp =>
    let rows := (joinAppts db).filter fun r =>
      (evalPreds evalApptPred wp.1 wp.2 r).getD false
    .ok ((List.insertionSort apptOrd rows).map mapApptJoined)

/-- The conjunction of the supplied appointment filters, written
directly (no positional binding): the specification-side predicate. -/
def apptConj (pid did dfrom dto : Option String) (r : ApptJoined) : Bool :=
  (match intFilterVal pid with | none => true | some n => r.patient_id == n) &&
  ((match intFilterVal did with | none => true | some n => r.doctor_id == n) &&
  ((match strFilterVal dfrom with | none => true | some s => strLeb s r.appointment_date) &&
  (match strFilterVal dto with | none => true | some s => strLeb r.appointment_date s)))

/-! ### `GET /treatments` (app.py lines 232-266) -/

/-- The single predicate shape `get_treatments` can append. -/
inductive TreatPred
  | apptEq
deriving DecidableEq, Repr

/-- `t.appointment_id = ?` against one positional parameter. -/
def evalTreatPred : TreatPred → Param → TreatRow → Option Bool
  | .apptEq, .pint n, r => some (r.appointment_id == n)
  | _, _, _ => none

/-- The WHERE builder of `get_treatments`: one optional
`appointment_id` clause. -/
def buildTreatWhere (aid : Option String) :
    Except String (List TreatPred × List Param) :=
  intClause .apptEq aid

/-- `ORDER BY t.treatment_id DESC`. -/
def treatOrd (a b : TreatRow) : Prop := b.treatment_id ≤ a.treatment_id

instance : DecidableRel treatOrd := fun _ _ => by
  unfold treatOrd; infer_instance

instance : IsTotal TreatRow treatOrd := ⟨fun a b => le_total b.treatment_id a.treatment_id⟩

instance : IsTrans TreatRow treatOrd := ⟨fun _ _ _ h1 h2 => le_trans h2 h1⟩

/-- JSON record of a treatment list row: every column passes through
unchanged. -/
structure TreatJson where
  treatment_id : Int
  appointment_id : Int
  diagnosis : Option String
  prescription : Option String
  notes : Option String
deriving DecidableEq, Repr

def mapTreatRow (r : TreatRow) : TreatJson :=
  { treatment_id := r.treatment_id
    appointment_id := r.appointment_id
    diagnosis := r.diagnosis
    prescription := r.prescription
    notes := r.notes }

/-- `GET /treatments`: optional `appointment_id` filter, fixed sort,
map to JSON. -/
def get_treatments (db : DB) (aid : Option String) : ListResp TreatJson :=
  match buildTreatWhere aid with
  | .error e => .fail 500 ("Server Error: " ++ e)
  | .ok wp =>
    let rows := db.treatments.filter fun r =>
      (evalPreds evalTreatPred wp.1 wp.2 r).getD false
    .ok ((List.insertionSort treatOrd rows).map mapTreatRow)

/-- The conjunction of the supplied treatment filters, written
directly. -/
def treatConj (aid : Option String) (r : TreatRow) : Bool :=
  match intFilterVal aid with | none => true | some n => r.appointment_id == n

/-! ### `GET /billing` (app.py lines 271-319) -/

/-- One result row of the billing list query: `Billing` joined with
`Patient` for the name. -/
structure BillJoined where
  bill_id : Int
  patient_id : Int
  patient_name : String
  treatment_id : Option Int
  amount : Option Rat
  payment_status : String
  billing_date : String
deriving DecidableEq, Repr

/-- `FROM dbo.Billing b JOIN dbo.Patient p ON p.patient_id = b.patient_id`. -/
def joinBilling (db : DB) : List BillJoined :=
  db.billing.flatMap fun b =>
    (db.patients.filter fun p => p.patient_id == b.patient_id).map fun p =>
      { bill_id := b.bill_id
        patient_id := b.patient_id
        patient_name := p.name
        treatment_id := b.treatment_id
        amount := b.amount
        payment_status := b.payment_status
        billing_date := b.billing_date }

/-- The predicate shapes `get_billing` can append. -/
inductive BillPred
  | patEq
  | statusEq
deriving DecidableEq, Repr

/-- `b.patient_id = ?` and `b.payment_status = ?` (exact,
case-sensitive string equality) against one positional parameter. -/
def evalBillPred : BillPred → Param → BillJoined → Option Bool
  | .patEq, .pint n, r => some (r.patient_id == n)
  | .statusEq, .pstr s, r => some (r.payment_status == s)
  | _, _, _ => none

/-- The WHERE builder of `get_billing`: optional `patient_id` (integer)
then optional `status` (string) clause. -/
def buildBillWhere (pid status : Option String) :
    Except String (List BillPred × List Param) :=
  match intClause .patEq pid with
  | .error e => .error e
  | .ok c1 =>
    let c2 := strClause .statusEq status
    .ok (c1.1 ++ c2.1, c1.2 ++ c2.2)

/-- `ORDER BY b.billing_date DESC, b.bill_id DESC`. -/
def billOrd (a b : BillJoined) : Prop :=
  descPairB (a.billing_date, a.bill_id) (b.billing_date, b.bill_id) = true

instance : DecidableRel billOrd := fun _ _ => by
  unfold billOrd; infer_instance

instance : IsTotal BillJoined billOrd := ⟨fun _ _ => descPairB_total _ _⟩

instance : IsTrans BillJoined billOrd := ⟨fun _ _ _ => descPairB_trans⟩

/-- JSON record of a billing list row (app.py lines 306-316):
`amount` is `float(r[4]) if r[4] is not None else None`; the
`float(...)` coercion of an exact decimal is carried exactly. -/
structure BillJson where
  bill_id : Int
  patient_id : Int
  patient_name : String
  treatment_id : Option Int
  amount : Option Rat
  payment_status : String
  billing_date : String
deriving DecidableEq, Repr

/-- Python `float(...)` applied to a fetched decimal, carried as the
exact value (no precision statement is made about it). -/
def pyFloat (q : Rat) : Rat := q

def mapBillJoined (r : BillJoined) : BillJson :=
  { bill_id := r.bill_id
    patient_id := r.patient_id
    patient_name := r.patient_name
    treatment_id := r.treatment_id
    amount := match r.amount with
      | some a => some (pyFloat a)
      | none => none
    payment_status := r.payment_status
    billing_date := r.billing_date }

/-- `GET /billing`: optional `patient_id` and `status` filters, fixed
sort, map to JSON. -/
def get_billing (db : DB) (pid status : Option String) : ListResp BillJson :=
  match buildBillWhere pid status with
  | .error e => .fail 500 ("Server Error: " ++ e)
  | .ok wp =>
    let rows := (joinBilling db).filter fun r =>
      (evalPreds evalBillPred wp.1 wp.2 r).getD false
    .ok ((List.insertionSort billOrd rows).map mapBillJoined)

/-- The conjunction of the supplied billing filters, written
directly. -/
def billConj (pid status : Option String) (r : BillJoined) : Bool :=
  (match intFilterVal pid with | none => true | some n => r.patient_id == n) &&
  (match strFilterVal status with | none => true | some s => r.payment_status == s)

/-! ### Appointment writes (app.py lines 345-508) -/

/-- A JSON body field: absent from the body, present as JSON null, or
present with a value.  Python `data.get(k)` yields `None` for both
`absent` and `null`. -/
inductive JField (α : Type)
  | absent
  | null
  | val (a : α)
deriving DecidableEq, Repr

/-- `data.get(k)`: absent and JSON null both collapse to `None`. -/
def pyGet {α : Type} : JField α → Option α
  | .absent => none
  | .null => none
  | .val a => some a

/-- Rewrite every JSON-null field of a body to an absent one. -/
def stripNull {α : Type} : JField α → JField α
  | .null => .absent
  | f => f

/-- Body of `PUT /appointments/{id}`: any subset of the four fields. -/
structure UpdateBody where
  patient_id : JField Int
  doctor_id : JField Int
  appointment_date : JField String
  reason : JField String
deriving DecidableEq, Repr

def normalizeBody (b : UpdateBody) : UpdateBody :=
  { patient_id := stripNull b.patient_id
    doctor_id := stripNull b.doctor_id
    appointment_date := stripNull b.appointment_date
    reason := stripNull b.reason }

/-- The SET clauses `update_appointment` can append. -/
inductive SetCol
  | setPat
  | setDoc
  | setDate
  | setReason
deriving DecidableEq, Repr

/-- Apply one `col = ?` SET clause against one positional parameter. -/
def applyOne : SetCol → Param → ApptRow → Option ApptRow
  | .setPat, .pint n, a => some { a with patient_id := n }
  | .setDoc, .pint n, a => some { a with doctor_id := n }
  | .setDate, .pstr s, a => some { a with appointment_date := s }
  | .setReason, .pstr s, a => some { a with reason := some s }
  | _, _, _ => none

/-- Apply a SET-clause list to a row, consuming the positional
parameters strictly in order. -/
def applySets : List SetCol → List Param → ApptRow → Option ApptRow
  | [], [], a => some a
  | c :: cs, v :: vs, a => (applyOne c v a).bind (applySets cs vs)
  | _, _, _ => none

/-- One `if <field> is not None:` block of `update_appointment`:
append one SET clause and one parameter. -/
def setClause {α : Type} (c : SetCol) (toParam : α → Param) (v : Option α) :
    List SetCol × List Param :=
  match v with
  | some a => ([c], [toParam a])
  | none => ([], [])

/-- The SET builder of `update_appointment`: four `is not None` blocks
in source order (patient, doctor, date, reason). -/
def buildSets (b : UpdateBody) : List SetCol × List Param :=
  let c1 := setClause .setPat (fun n => .pint n) (pyGet b.patient_id)
  let c2 := setClause .setDoc (fun n => .pint n) (pyGet b.doctor_id)
  let c3 := setClause .setDate (fun s => .pstr s) (pyGet b.appointment_date)
  let c4 := setClause .setReason (fun s => .pstr s) (pyGet b.reason)
  (c1.1 ++ c2.1 ++ c3.1 ++ c4.1, c1.2 ++ c2.2 ++ c3.2 ++ c4.2)

/-- `SELECT COUNT(*) FROM dbo.Appointment WHERE appointment_id = ?`. -/
def countAppt (db : DB) (aid : Int) : Nat :=
  (db.appointments.filter fun a => a.appointment_id == aid).length

/-- `SELECT COUNT(*) FROM dbo.Patient WHERE patient_id = ?`. -/
def countPatient (db : DB) (pid : Int) : Nat :=
  (db.patients.filter fun p => p.patient_id == pid).length

/-- `SELECT COUNT(*) FROM dbo.Doctor WHERE doctor_id = ?`. -/
def countDoctor (db : DB) (did : Int) : Nat :=
  (db.doctors.filter fun d => d.doctor_id == did).length

/-- The read-back query of the write handlers: the joined appointment
row with the given id (`fetchone` takes the first match). -/
def fetchApptJoined (db : DB) (aid : Int) : Option ApptJoined :=
  (joinAppts db).find? fun j => j.appointment_id == aid

/-- Outcome of a write handler returning an appointment body. -/
inductive MutResp
  | ok (status : Nat) (body : ApptJson)
  | fail (status : Nat) (message : String)
deriving DecidableEq, Repr

/-- Result of `POST /appointments`: response, resulting store, and
whether `conn.close()` ran before the handler returned.  Every modeled
path of this handler closes the connection before returning (the
explicit `conn.close()` calls at lines 369, 374 and 397). -/
structure CreateOut where
  resp : MutResp
  db : DB
  connClosed : Bool
deriving DecidableEq, Repr

/-- `POST /appointments` (lines 345-402): validate both foreign keys,
insert with the identity id, re-read the joined row, return 201. -/
def create_appointment (db : DB) (patient_id doctor_id : Int)
    (appointment_date : String) (reason : Option String) : CreateOut :=
  if countPatient db patient_id == 0 then
    { resp := .fail 400 "Invalid patient_id", db := db, connClosed := true }
  else if countDoctor db doctor_id == 0 then
    { resp := .fail 400 "Invalid doctor_id", db := db, connClosed := true }
  else
    let newId := db.nextApptId
    let row : ApptRow :=
      { appointment_id := newId, patient_id := patient_id,
        doctor_id := doctor_id, appointment_date := appointment_date,
        reason := reason }
    let db' := { db with appointments := db.appointments ++ [row],
                         nextApptId := newId + 1 }
    match fetchApptJoined db' newId with
    | some j => { resp := .ok 201 (mapApptJoined j), db := db', connClosed := true }
    | none => { resp := .fail 500 "Server Error", db := db', connClosed := true }

/-- Apply a row-level operation that can raise to every row of a
table: the whole UPDATE statement fails if any row application does. -/
def mapMOpt {α β : Type} (f : α → Option β) : List α → Option (List β)
  | [] => some []
  | x :: xs => (f x).bind fun y => (mapMOpt f xs).map fun ys => y :: ys

/-- `PUT /appointments/{id}` (lines 407-485): build the SET clauses
from the non-`None` body fields; empty SET list is rejected before any
query; then, in source order, the record-existence check (404), the
patient foreign-key check (400), the doctor foreign-key check (400);
then the single UPDATE and the joined read-back. -/
def update_appointment (db : DB) (aid : Int) (b : UpdateBody) :
    MutResp × DB :=
  let sw := buildSets b
  if sw.1.isEmpty then (.fail 400 "Nothing to update", db)
  else if countAppt db aid == 0 then (.fail 404 "Appointment not found", db)
  else if (match pyGet b.patient_id with
           | some n => countPatient db n == 0
           | none => false) then (.fail 400 "Invalid patient_id", db)
  else if (match pyGet b.doctor_id with
           | some n => countDoctor db n == 0
           | none => false) then (.fail 400 "Invalid doctor_id", db)
  else
    match mapMOpt (fun a =>
        if a.appointment_id == aid then applySets sw.1 sw.2 a else some a)
        db.appointments with
    | none => (.fail 500 "Server Error", db)
    | some rows =>
      let db' := { db with appointments := rows }
      match fetchApptJoined db' aid with
      | some j => (.ok 200 (mapApptJoined j), db')
      | none => (.fail 500 "Server Error", db')

/-- Outcome of `DELETE /appointments/{id}`. -/
inductive DelResp
  | ok (message : String)
  | fail (status : Nat) (message : String)
deriving DecidableEq, Repr

/-- `DELETE /appointments/{id}` (lines 490-508): existence check, then
the DELETE statement. -/
def delete_appointment (db : DB) (aid : Int) : DelResp × DB :=
  if countAppt db aid == 0 then (.fail 404 "Appointment not found", db)
  else
    let db' := { db with
      appointments := db.appointments.filter fun a => !(a.appointment_id == aid) }
    (.ok "Appointment deleted", db')

/-! ### Lemmas: positional WHERE evaluation equals direct conjunction -/

theorem evalPreds_append {π ρ : Type} (e1 : π → Param → ρ → Option Bool)
    (w1 : List π) (ps1 : List Param) (w2 : List π) (ps2 : List Param)
    (h : w1.length = ps1.length) (r : ρ) :
    evalPreds e1 (w1 ++ w2) (ps1 ++ ps2) r =
      (evalPreds e1 w1 ps1 r).bind fun b =>
        (evalPreds e1 w2 ps2 r).map fun c => b && c := by
  induction w1 generalizing ps1 with
  | nil =>
    cases ps1 with
    | nil =>
      simp only [List.nil_append, evalPreds]
      cases evalPreds e1 w2 ps2 r <;> simp
    | cons v vs => simp at h
  | cons p w ih =>
    cases ps1 with
    | nil => simp at h
    | cons v vs =>
      simp only [List.cons_append, evalPreds, List.append_eq]
      rw [ih vs (by simpa using h)]
      cases e1 p v r with
      | none => simp
      | some b =>
        cases evalPreds e1 w vs r with
        | none => simp
        | some c =>
          cases evalPreds e1 w2 ps2 r <;> simp [Bool.and_assoc]

theorem evalPreds_singleton {π ρ : Type} (e1 : π → Param → ρ → Option Bool)
    (p : π) (v : Param) (r : ρ) :
    evalPreds e1 [p] [v] r = e1 p v r := by
  cases h : e1 p v r <;> simp [evalPreds, h]

/-- A valid integer filter builds the clause its contributed value
dictates: nothing when absent or empty, one predicate and one
parameter otherwise. -/
theorem intClause_ok {π : Type} (p : π) (arg : Option String)
    (hv : validIntFilter arg = true) :
    intClause p arg =
      .ok (match intFilterVal arg with
           | none => (([] : List π), ([] : List Param))
           | some n => ([p], [.pint n])) := by
  cases arg with
  | none => simp [intClause, truthy, intFilterVal]
  | some s =>
    by_cases hs : s = ""
    · subst hs; simp [intClause, truthy, intFilterVal]
    · cases ht : pyInt s with
      | none =>
        simp [validIntFilter, hs, ht] at hv
      | some n =>
        simp [intClause, truthy, intFilterVal, hs, ht]

/-- A string filter builds the clause its contributed value
dictates. -/
theorem strClause_eq {π : Type} (p : π) (arg : Option String) :
    strClause p arg =
      (match strFilterVal arg with
       | none => (([] : List π), ([] : List Param))
       | some s => ([p], [.pstr s])) := by
  cases arg with
  | none => simp [strClause, truthy, strFilterVal]
  | some s =>
    by_cases hs : s = ""
    · subst hs; simp [strClause, truthy, strFilterVal]
    · simp [strClause, truthy, strFilterVal, hs]

/-- With valid integer filters, the appointment WHERE builder cannot
raise. -/
theorem buildApptWhere_ok (pid did dfrom dto : Option String)
    (h1 : validIntFilter pid = true) (h2 : validIntFilter did = true) :
    ∃ wp, buildApptWhere pid did dfrom dto = .ok wp := by
  rw [buildApptWhere, intClause_ok ApptPred.patEq pid h1,
    intClause_ok ApptPred.docEq did h2]
  exact ⟨_, rfl⟩

/-- Positional evaluation of the built appointment WHERE clause is the
direct conjunction of the supplied filters. -/
theorem buildApptWhere_eval (pid did dfrom dto : Option String)
    (h1 : validIntFilter pid = true) (h2 : validIntFilter did = true)
    (wp : List ApptPred × List Param)
    (hwp : buildApptWhere pid did dfrom dto = .ok wp) (r : ApptJoined) :
    (evalPreds evalApptPred wp.1 wp.2 r).getD false =
      apptConj pid did dfrom dto r := by
  rw [buildApptWhere, intClause_ok ApptPred.patEq pid h1,
    intClause_ok ApptPred.docEq did h2, strClause_eq ApptPred.dateGe dfrom,
    strClause_eq ApptPred.dateLe dto] at hwp
  cases hp : intFilterVal pid <;> cases hd : intFilterVal did <;>
    cases hf : strFilterVal dfrom <;> cases ht : strFilterVal dto <;>
    simp only [hp, hd, hf, ht] at hwp <;> cases hwp <;>
    simp [evalPreds, evalApptPred, apptConj, hp, hd, hf, ht]

/-- `GET /appointments` with valid filters returns exactly the joined
rows satisfying the conjunction of the supplied filters, in the fixed
order. -/
theorem get_appointments_spec (db : DB) (pid did dfrom dto : Option String)
    (h1 : validIntFilter pid = true) (h2 : validIntFilter did = true) :
    get_appointments db pid did dfrom dto =
      .ok ((List.insertionSort apptOrd
        ((joinAppts db).filter (apptConj pid did dfrom dto))).map mapApptJoined) := by
  obtain ⟨wp, hb⟩ := buildApptWhere_ok pid did dfrom dto h1 h2
  have hfn : (fun r : ApptJoined =>
      (evalPreds evalApptPred wp.1 wp.2 r).getD false) =
      apptConj pid did dfrom dto :=
    funext fun r => buildApptWhere_eval pid did dfrom dto h1 h2 wp hb r
  rw [get_appointments, hb]
  simp only [hfn]

/-- With a valid integer filter, the treatment WHERE builder cannot
raise. -/
theorem buildTreatWhere_ok (aid : Option String)
    (h : validIntFilter aid = true) :
    ∃ wp, buildTreatWhere aid = .ok wp := by
  rw [buildTreatWhere, intClause_ok TreatPred.apptEq aid h]
  exact ⟨_, rfl⟩

/-- Positional evaluation of the built treatment WHERE clause is the
direct filter. -/
theorem buildTreatWhere_eval (aid : Option String)
    (h : validIntFilter aid = true) (wp : List TreatPred × List Param)
    (hwp : buildTreatWhere aid = .ok wp) (r : TreatRow) :
    (evalPreds evalTreatPred wp.1 wp.2 r).getD false = treatConj aid r := by
  rw [buildTreatWhere, intClause_ok TreatPred.apptEq aid h] at hwp
  cases ha : intFilterVal aid <;>
    simp only [ha] at hwp <;> cases hwp <;>
    simp [evalPreds, evalTreatPred, treatConj, ha]

/-- `GET /treatments` with a valid filter returns exactly the rows
satisfying the supplied filter, in the fixed order. -/
theorem get_treatments_spec (db : DB) (aid : Option String)
    (h : validIntFilter aid = true) :
    get_treatments db aid =
      .ok ((List.insertionSort treatOrd
        (db.treatments.filter (treatConj aid))).map mapTreatRow) := by
  obtain ⟨wp, hb⟩ := buildTreatWhere_ok aid h
  have hfn : (fun r : TreatRow =>
      (evalPreds evalTreatPred wp.1 wp.2 r).getD false) = treatConj aid :=
    funext fun r => buildTreatWhere_eval aid h wp hb r
  rw [get_treatments, hb]
  simp only [hfn]

/-- With a valid integer filter, the billing WHERE builder cannot
raise. -/
theorem buildBillWhere_ok (pid status : Option String)
    (h : validIntFilter pid = true) :
    ∃ wp, buildBillWhere pid status = .ok wp := by
  rw [buildBillWhere, intClause_ok BillPred.patEq pid h]
  exact ⟨_, rfl⟩

/-- Positional evaluation of the built billing WHERE clause is the
direct conjunction of the supplied filters. -/
theorem buildBillWhere_eval (pid status : Option String)
    (h : validIntFilter pid = true) (wp : List BillPred × List Param)
    (hwp : buildBillWhere pid status = .ok wp) (r : BillJoined) :
    (evalPreds evalBillPred wp.1 wp.2 r).getD false = billConj pid status r := by
  rw [buildBillWhere, intClause_ok BillPred.patEq pid h,
    strClause_eq BillPred.statusEq status] at hwp
  cases hp : intFilterVal pid <;> cases hs : strFilterVal status <;>
    simp only [hp, hs] at hwp <;> cases hwp <;>
    simp [evalPreds, evalBillPred, billConj, hp, hs]

/-- `GET /billing` with valid filters returns exactly the joined rows
satisfying the conjunction of the supplied filters, in the fixed
order. -/
theorem get_billing_spec (db : DB) (pid status : Option String)
    (h : validIntFilter pid = true) :
    get_billing db pid status =
      .ok ((List.insertionSort billOrd
        ((joinBilling db).filter (billConj pid status))).map mapBillJoined) := by
  obtain ⟨wp, hb⟩ := buildBillWhere_ok pid status h
  have hfn : (fun r : BillJoined =>
      (evalPreds evalBillPred wp.1 wp.2 r).getD false) = billConj pid status :=
    funext fun r => buildBillWhere_eval pid status h wp hb r
  rw [get_billing, hb]
  simp only [hfn]

/-! ### Concrete fixtures used by witnesses -/

def wAlice : PatientRow := ⟨1, "Alice", some ⟨1990, 2, 3⟩, some "F", none, none⟩

def wBob : PatientRow := ⟨2, "Bob", none, none, none, none⟩

def wDurand : DoctorRow := ⟨1, "Durand", some "ENT", none, none⟩

def wAppt1 : ApptRow := ⟨1, 1, 1, "2025-01-05 09:00:00", some "Check-up"⟩

def wAppt2 : ApptRow := ⟨2, 2, 1, "2025-01-07 10:00:00", none⟩

def wTreat1 : TreatRow := ⟨1, 1, some "flu", none, none⟩

def wTreat2 : TreatRow := ⟨2, 2, none, none, none⟩

def wBill1 : BillRow := ⟨1, 1, some 1, some (25/2 : Rat), "Paid", "2025-01-06"⟩

def wBill2 : BillRow := ⟨2, 2, none, none, "Unpaid", "2025-01-08"⟩

def wUser : AppUserRow := ⟨"amy", "pw1", "Amy A", "admin"⟩

/-- A stand-in for `bcrypt.checkpw`: password matches when equal to the
stored text. -/
def wCheck (p h : String) : Bool := p == h

def wDB : DB :=
  ⟨[wAlice, wBob], [wDurand], [wAppt1, wAppt2], [wTreat1, wTreat2],
   [wBill1, wBill2], [wUser], 3⟩

/-! ### Claim theorems -/

/-- C2: a `POST /appointments` whose `patient_id` references no
existing `Patient` row returns HTTP 400 with the invalid-reference
message `Invalid patient_id` and performs no insert — the store, in
particular the `Appointment` table, is unchanged. -/
theorem claim2_create_invalid_patient (db : DB) (patient_id doctor_id : Int)
    (appointment_date : String) (reason : Option String)
    (h : ∀ p ∈ db.patients, p.patient_id ≠ patient_id) :
    (create_appointment db patient_id doctor_id appointment_date reason).resp =
      .fail 400 "Invalid patient_id" ∧
    (create_appointment db patient_id doctor_id appointment_date reason).db = db := by
  have hf : db.patients.filter (fun p => p.patient_id == patient_id) = [] := by
    rw [List.filter_eq_nil_iff]
    simpa using h
  constructor <;> simp [create_appointment, countPatient, hf]

theorem claim2_witness :
    (∀ p ∈ wDB.patients, p.patient_id ≠ (99 : Int)) ∧
    (create_appointment wDB 99 1 "2025-02-01 08:00:00" none).resp =
      .fail 400 "Invalid patient_id" ∧
    (create_appointment wDB 99 1 "2025-02-01 08:00:00" none).db = wDB :=
  ⟨by decide, claim2_create_invalid_patient wDB 99 1 "2025-02-01 08:00:00" none (by decide)⟩

/-- C3: a `PUT /appointments/{id}` in which none of the four fields is
supplied returns HTTP 400 `Nothing to update` and leaves the store
unchanged (the empty-SET check runs before any statement). -/
theorem claim3_update_no_fields (db : DB) (aid : Int) (b : UpdateBody)
    (h1 : pyGet b.patient_id = none) (h2 : pyGet b.doctor_id = none)
    (h3 : pyGet b.appointment_date = none) (h4 : pyGet b.reason = none) :
    update_appointment db aid b = (.fail 400 "Nothing to update", db) := by
  simp [update_appointment, buildSets, setClause, h1, h2, h3, h4]

theorem claim3_witness :
    pyGet (UpdateBody.patient_id ⟨.null, .absent, .absent, .null⟩) = none ∧
    update_appointment wDB 1 ⟨.null, .absent, .absent, .null⟩ =
      (.fail 400 "Nothing to update", wDB) :=
  ⟨by decide, claim3_update_no_fields wDB 1 ⟨.null, .absent, .absent, .null⟩
    (by decide) (by decide) (by decide) (by decide)⟩

/-- C4: a `DELETE /appointments/{id}` for an id with no matching
appointment returns HTTP 404 and executes no DELETE — the store is
unchanged. -/
theorem claim4_delete_missing (db : DB) (aid : Int)
    (h : ∀ a ∈ db.appointments, a.appointment_id ≠ aid) :
    delete_appointment db aid = (.fail 404 "Appointment not found", db) := by
  have hf : db.appointments.filter (fun a => a.appointment_id == aid) = [] := by
    rw [List.filter_eq_nil_iff]
    simpa using h
  simp [delete_appointment, countAppt, hf]

theorem claim4_witness :
    (∀ a ∈ wDB.appointments, a.appointment_id ≠ (42 : Int)) ∧
    delete_appointment wDB 42 = (.fail 404 "Appointment not found", wDB) :=
  ⟨by decide, claim4_delete_missing wDB 42 (by decide)⟩

/-- C5: `POST /login` — an unmatched username yields 401
`User not found`; a matched user with a failing hash check yields 401
`Invalid password`; a passing check yields exactly the stored
`username`, `full_name` and `role` (the response payload has no field
for the password hash). -/
theorem claim5_login (users : List AppUserRow)
    (checkpw : String → String → Bool) (username password : String) :
    ((∀ u ∈ users, u.username ≠ username) →
      login users checkpw username password = .failure 401 "User not found") ∧
    (∀ u, users.find? (fun v => v.username == username) = some u →
      (checkpw password u.password_hash = false →
        login users checkpw username password =
          .failure 401 "Invalid password") ∧
      (checkpw password u.password_hash = true →
        login users checkpw username password =
          .success { username := u.username, full_name := u.full_name,
                     role := u.role })) := by
  constructor
  · intro h
    have hn : users.find? (fun v => v.username == username) = none := by
      rw [List.find?_eq_none]
      simpa using h
    simp [login, hn]
  · intro u hu
    constructor <;> intro hc <;> simp [login, hu, hc]

theorem claim5_witness :
    login [wUser] wCheck "amy" "pw1" =
      .success { username := "amy", full_name := "Amy A", role := "admin" } ∧
    login [wUser] wCheck "amy" "nope" = .failure 401 "Invalid password" ∧
    login [wUser] wCheck "zoe" "pw1" = .failure 401 "User not found" :=
  ⟨((claim5_login [wUser] wCheck "amy" "pw1").2 wUser (by decide)).2 (by decide),
   ((claim5_login [wUser] wCheck "amy" "nope").2 wUser (by decide)).1 (by decide),
   (claim5_login [wUser] wCheck "zoe" "pw1").1 (by decide)⟩

/-- C1: for every combination of valid filters, each of the three
filtered list endpoints returns exactly the resource rows satisfying
the conjunction of the supplied predicates (an absent or empty filter
contributing neither predicate nor parameter, the parameters bound
positionally in clause order), sorted in the fixed per-resource order:
appointments by date then id descending, treatments by id descending,
billing by billing date then id descending. -/
theorem claim1_list_filter_conjunction (db : DB)
    (pid did dfrom dto aid bpid status : Option String)
    (h1 : validIntFilter pid = true) (h2 : validIntFilter did = true)
    (h3 : validIntFilter aid = true) (h4 : validIntFilter bpid = true) :
    (get_appointments db pid did dfrom dto =
        .ok ((List.insertionSort apptOrd
          ((joinAppts db).filter (apptConj pid did dfrom dto))).map mapApptJoined) ∧
      List.Sorted apptOrd
        (List.insertionSort apptOrd ((joinAppts db).filter (apptConj pid did dfrom dto))) ∧
      (List.insertionSort apptOrd
        ((joinAppts db).filter (apptConj pid did dfrom dto))).Perm
        ((joinAppts db).filter (apptConj pid did dfrom dto))) ∧
    (get_treatments db aid =
        .ok ((List.insertionSort treatOrd
          (db.treatments.filter (treatConj aid))).map mapTreatRow) ∧
      List.Sorted treatOrd
        (List.insertionSort treatOrd (db.treatments.filter (treatConj aid))) ∧
      (List.insertionSort treatOrd (db.treatments.filter (treatConj aid))).Perm
        (db.treatments.filter (treatConj aid))) ∧
    (get_billing db bpid status =
        .ok ((List.insertionSort billOrd
          ((joinBilling db).filter (billConj bpid status))).map mapBillJoined) ∧
      List.Sorted billOrd
        (List.insertionSort billOrd ((joinBilling db).filter (billConj bpid status))) ∧
      (List.insertionSort billOrd
        ((joinBilling db).filter (billConj bpid status))).Perm
        ((joinBilling db).filter (billConj bpid status))) :=
  ⟨⟨get_appointments_spec db pid did dfrom dto h1 h2,
    List.sorted_insertionSort apptOrd _, List.perm_insertionSort apptOrd _⟩,
   ⟨get_treatments_spec db aid h3,
    List.sorted_insertionSort treatOrd _, List.perm_insertionSort treatOrd _⟩,
   ⟨get_billing_spec db bpid status h4,
    List.sorted_insertionSort billOrd _, List.perm_insertionSort billOrd _⟩⟩

theorem claim1_witness :
    (validIntFilter (some "1") = true ∧ validIntFilter (some "2") = true) ∧
    (get_appointments wDB (some "1") none (some "2025-01-01") none =
        .ok ((List.insertionSort apptOrd
          ((joinAppts wDB).filter
            (apptConj (some "1") none (some "2025-01-01") none))).map mapApptJoined) ∧
      List.Sorted apptOrd
        (List.insertionSort apptOrd ((joinAppts wDB).filter
          (apptConj (some "1") none (some "2025-01-01") none))) ∧
      (List.insertionSort apptOrd
        ((joinAppts wDB).filter
          (apptConj (some "1") none (some "2025-01-01") none))).Perm
        ((joinAppts wDB).filter
          (apptConj (some "1") none (some "2025-01-01") none))) ∧
    (get_treatments wDB (some "2") =
        .ok ((List.insertionSort treatOrd
          (wDB.treatments.filter (treatConj (some "2")))).map mapTreatRow) ∧
      List.Sorted treatOrd
        (List.insertionSort treatOrd (wDB.treatments.filter (treatConj (some "2")))) ∧
      (List.insertionSort treatOrd (wDB.treatments.filter (treatConj (some "2")))).Perm
        (wDB.treatments.filter (treatConj (some "2")))) ∧
    (get_billing wDB none (some "Paid") =
        .ok ((List.insertionSort billOrd
          ((joinBilling wDB).filter (billConj none (some "Paid")))).map mapBillJoined) ∧
      List.Sorted billOrd
        (List.insertionSort billOrd
          ((joinBilling wDB).filter (billConj none (some "Paid")))) ∧
      (List.insertionSort billOrd
        ((joinBilling wDB).filter (billConj none (some "Paid")))).Perm
        ((joinBilling wDB).filter (billConj none (some "Paid")))) :=
  ⟨⟨by decide, by decide⟩,
   claim1_list_filter_conjunction wDB (some "1") none (some "2025-01-01") none
     (some "2") none (some "Paid") (by decide) (by decide) (by decide) (by decide)⟩

/-- HTTP status of a list response (200 for a JSON array). -/
def listRespStatus {α : Type} : ListResp α → Nat
  | .ok _ => 200
  | .fail s _ => s

/-- C6 counterexample: a non-numeric `patient_id` filter on
`GET /appointments` is reported as HTTP 500 (the generic handler
catch), not as the HTTP 400 the claim states. -/
theorem claim6_counterexample :
    listRespStatus (get_appointments emptyDB (some "abc") none none none) = 500 ∧
    listRespStatus (get_appointments emptyDB (some "abc") none none none) ≠ 400 ∧
    get_appointments emptyDB (some "abc") none none none =
      .fail 500 "Server Error: invalid literal for int() with base 10: abc" :=
  ⟨by decide, by decide, by decide⟩

/-- C6 as amended: a list request supplying a non-empty, non-numeric
value for an integer filter (`patient_id` or `doctor_id` on
`/appointments`, `appointment_id` on `/treatments`, `patient_id` on
`/billing`) fails with the raised `int(...)` error reported by the
blanket exception handler as HTTP 500 `Server Error`, not 400. -/
theorem claim6_nonnumeric_filter_500 (db : DB) (s : String)
    (did dfrom dto status : Option String)
    (hs : (s == "") = false) (hp : pyInt s = none) :
    get_appointments db (some s) did dfrom dto =
      .fail 500 ("Server Error: " ++ ("invalid literal for int() with base 10: " ++ s)) ∧
    get_appointments db none (some s) dfrom dto =
      .fail 500 ("Server Error: " ++ ("invalid literal for int() with base 10: " ++ s)) ∧
    get_treatments db (some s) =
      .fail 500 ("Server Error: " ++ ("invalid literal for int() with base 10: " ++ s)) ∧
    get_billing db (some s) status =
      .fail 500 ("Server Error: " ++ ("invalid literal for int() with base 10: " ++ s)) := by
  refine ⟨?_, ?_, ?_, ?_⟩ <;>
    simp [get_appointments, get_treatments, get_billing, buildApptWhere,
      buildTreatWhere, buildBillWhere, intClause, truthy, hs, hp]

theorem claim6_witness :
    (("zz" == "") = false ∧ pyInt "zz" = none) ∧
    get_appointments wDB (some "zz") none none none =
      .fail 500 ("Server Error: " ++ ("invalid literal for int() with base 10: " ++ "zz")) ∧
    get_appointments wDB none (some "zz") none none =
      .fail 500 ("Server Error: " ++ ("invalid literal for int() with base 10: " ++ "zz")) ∧
    get_treatments wDB (some "zz") =
      .fail 500 ("Server Error: " ++ ("invalid literal for int() with base 10: " ++ "zz")) ∧
    get_billing wDB (some "zz") none =
      .fail 500 ("Server Error: " ++ ("invalid literal for int() with base 10: " ++ "zz")) :=
  ⟨⟨by decide, by decide⟩,
   claim6_nonnumeric_filter_500 wDB "zz" none none none none (by decide) (by decide)⟩

/-- C7 counterexample: when the cursor-execute step of `GET /patients`
raises after the connection was acquired, the handler returns the 500
response without `conn.close()` having run — the connection is not
released on this exit path, contradicting the claim that every exit
path releases it. -/
theorem claim7_counterexample :
    (get_patients emptyDB true).1 = .fail 500 "Server Error" ∧
    (get_patients emptyDB true).2 = false :=
  ⟨by decide, by decide⟩

/-- C7 as amended: the connection is released before returning on the
success path and on every explicit validation/reference exit of the
write flow, but a statement that raises after acquisition reaches the
blanket exception handler, which returns 500 without releasing the
connection. -/
theorem claim7_connection_release (db : DB) (patient_id doctor_id : Int)
    (appointment_date : String) (reason : Option String) :
    (get_patients db false).2 = true ∧
    ((get_patients db true).2 = false ∧
      (get_patients db true).1 = .fail 500 "Server Error") ∧
    (create_appointment db patient_id doctor_id appointment_date reason).connClosed
      = true := by
  refine ⟨by simp [get_patients], ⟨rfl, rfl⟩, ?_⟩
  unfold create_appointment
  split_ifs <;>
    first
      | rfl
      | (cases hf : fetchApptJoined
          { db with
            appointments := db.appointments ++
              [{ appointment_id := db.nextApptId, patient_id := patient_id,
                 doctor_id := doctor_id, appointment_date := appointment_date,
                 reason := reason }],
            nextApptId := db.nextApptId + 1 } db.nextApptId <;> simp [hf])

/-- HTTP status of a write response. -/
def mutRespStatus : MutResp → Nat
  | .ok s _ => s
  | .fail s _ => s

/-- C8 counterexample: a `PUT /appointments/77` supplying a
`patient_id` that references no patient, on an appointment id that does
not exist, returns 404 `Appointment not found` — the record-existence
check runs first, so the claimed 400 `InvalidReference` outcome does
not occur. -/
theorem claim8_counterexample :
    (update_appointment wDB 77 ⟨.val 99, .absent, .absent, .absent⟩).1 =
      .fail 404 "Appointment not found" ∧
    mutRespStatus (update_appointment wDB 77 ⟨.val 99, .absent, .absent, .absent⟩).1
      ≠ 400 ∧
    (∀ p ∈ wDB.patients, p.patient_id ≠ (99 : Int)) ∧
    (∀ a ∈ wDB.appointments, a.appointment_id ≠ (77 : Int)) :=
  ⟨by decide, by decide, by decide, by decide⟩

/-- C8 as amended: `update_appointment` checks, in order, the target
record's existence (404), then a supplied `patient_id` (400), then a
supplied `doctor_id` (400) — so a PUT whose supplied `patient_id` is
invalid fails `NotFound` (404), not `InvalidReference`, when the target
appointment id does not exist. -/
theorem claim8_update_check_order (db : DB) (aid : Int) (b : UpdateBody)
    (hne : (buildSets b).1 ≠ []) :
    (countAppt db aid = 0 →
      update_appointment db aid b = (.fail 404 "Appointment not found", db)) ∧
    (countAppt db aid ≠ 0 →
      ∀ n, pyGet b.patient_id = some n → countPatient db n = 0 →
        update_appointment db aid b = (.fail 400 "Invalid patient_id", db)) ∧
    (countAppt db aid ≠ 0 →
      (∀ n, pyGet b.patient_id = some n → countPatient db n ≠ 0) →
      ∀ m, pyGet b.doctor_id = some m → countDoctor db m = 0 →
        update_appointment db aid b = (.fail 400 "Invalid doctor_id", db)) := by
  refine ⟨?_, ?_, ?_⟩
  · intro h0
    simp [update_appointment, hne, h0]
  · intro h0 n hn hc
    simp [update_appointment, hne, h0, hn, hc]
  · intro h0 hpat m hm hc
    cases hp : pyGet b.patient_id with
    | none => simp [update_appointment, hne, h0, hp, hm, hc]
    | some n =>
      have hcn := hpat n hp
      simp [update_appointment, hne, h0, hp, hm, hc, hcn]

theorem claim8_witness :
    ((buildSets ⟨.val 1, .val 7, .absent, .absent⟩).1 ≠ [] ∧
      countAppt wDB 1 ≠ 0 ∧
      (∀ n, pyGet (UpdateBody.patient_id ⟨.val 1, .val 7, .absent, .absent⟩) = some n →
        countPatient wDB n ≠ 0) ∧
      pyGet (UpdateBody.doctor_id ⟨.val 1, .val 7, .absent, .absent⟩) = some 7 ∧
      countDoctor wDB 7 = 0) ∧
    update_appointment wDB 1 ⟨.val 1, .val 7, .absent, .absent⟩ =
      (.fail 400 "Invalid doctor_id", wDB) :=
  ⟨⟨by decide, by decide, by decide, by decide, by decide⟩,
   (claim8_update_check_order wDB 1 ⟨.val 1, .val 7, .absent, .absent⟩
       (by decide)).2.2 (by decide) (by decide) 7 (by decide) (by decide)⟩

/-- The canonical text of a date is never the empty string (it contains
the two separators). -/
theorem dateStr_ne_empty (d : DateV) : dateStr d ≠ "" := by
  intro h
  have hl := congrArg String.length h
  simp [dateStr, String.length_append] at hl
  exact absurd hl.1.2 (by decide)

/-- C9: row-mapping coercions — `Patient.date_of_birth` renders as its
string form when present and as null (never the empty string) when the
column is null; `Appointment.appointment_date` and
`Billing.billing_date` are rendered unconditionally as strings (carried
here as the string-typed fields, mapped as such); `Billing.amount`
renders as a floating-point number when present (also when zero, since
the code tests `is not None`, not truthiness) and as null when the
column is null; all other columns pass through unchanged. -/
theorem claim9_row_mapping (r : PatientRow) (aj : ApptJoined) (bj : BillJoined) :
    ((r.date_of_birth = none → (mapPatientRow r).date_of_birth = none) ∧
     (∀ d, r.date_of_birth = some d →
        (mapPatientRow r).date_of_birth = some (dateStr d) ∧ dateStr d ≠ "") ∧
     (mapPatientRow r).patient_id = r.patient_id ∧
     (mapPatientRow r).name = r.name ∧
     (mapPatientRow r).gender = r.gender ∧
     (mapPatientRow r).address = r.address ∧
     (mapPatientRow r).phone = r.phone) ∧
    ((mapApptJoined aj).appointment_date = aj.appointment_date ∧
     (mapApptJoined aj).appointment_id = aj.appointment_id ∧
     (mapApptJoined aj).reason = aj.reason ∧
     (mapApptJoined aj).patient_id = aj.patient_id ∧
     (mapApptJoined aj).patient_name = aj.patient_name ∧
     (mapApptJoined aj).doctor_id = aj.doctor_id ∧
     (mapApptJoined aj).doctor_name = aj.doctor_name) ∧
    ((bj.amount = none → (mapBillJoined bj).amount = none) ∧
     (∀ q, bj.amount = some q → (mapBillJoined bj).amount = some (pyFloat q)) ∧
     (bj.amount = some 0 → (mapBillJoined bj).amount = some (pyFloat 0)) ∧
     (mapBillJoined bj).billing_date = bj.billing_date ∧
     (mapBillJoined bj).bill_id = bj.bill_id ∧
     (mapBillJoined bj).patient_id = bj.patient_id ∧
     (mapBillJoined bj).patient_name = bj.patient_name ∧
     (mapBillJoined bj).treatment_id = bj.treatment_id ∧
     (mapBillJoined bj).payment_status = bj.payment_status) := by
  refine ⟨⟨?_, ?_, rfl, rfl, rfl, rfl, rfl⟩,
          ⟨rfl, rfl, rfl, rfl, rfl, rfl, rfl⟩,
          ⟨?_, ?_, ?_, rfl, rfl, rfl, rfl, rfl, rfl⟩⟩
  · intro h; simp [mapPatientRow, h]
  · intro d h; exact ⟨by simp [mapPatientRow, h], dateStr_ne_empty d⟩
  · intro h; simp [mapBillJoined, h]
  · intro q h; simp [mapBillJoined, h]
  · intro h; simp [mapBillJoined, h]

theorem claim9_witness :
    ((mapPatientRow wBob).date_of_birth = none ∧
      (mapPatientRow wAlice).date_of_birth = some (dateStr ⟨1990, 2, 3⟩) ∧
      dateStr ⟨1990, 2, 3⟩ ≠ "") ∧
    (mapBillJoined ⟨2, 2, "Bob", none, none, "Unpaid", "2025-01-08"⟩).amount = none ∧
    (mapBillJoined ⟨1, 1, "Alice", some 1, some (25/2 : Rat), "Paid",
        "2025-01-06"⟩).amount = some (pyFloat (25/2 : Rat)) :=
  ⟨⟨(claim9_row_mapping wBob
       ⟨1, "d", none, 1, "p", 1, "doc"⟩ ⟨1, 1, "p", none, none, "Paid", "d"⟩).1.1 rfl,
    (claim9_row_mapping wAlice
       ⟨1, "d", none, 1, "p", 1, "doc"⟩ ⟨1, 1, "p", none, none, "Paid", "d"⟩).1.2.1
      ⟨1990, 2, 3⟩ rfl⟩,
   (claim9_row_mapping wBob ⟨1, "d", none, 1, "p", 1, "doc"⟩
      ⟨2, 2, "Bob", none, none, "Unpaid", "2025-01-08"⟩).2.2.1 rfl,
   (claim9_row_mapping wBob ⟨1, "d", none, 1, "p", 1, "doc"⟩
      ⟨1, 1, "Alice", some 1, some (25/2 : Rat), "Paid", "2025-01-06"⟩).2.2.2.1
     (25/2 : Rat) rfl⟩

/-- The record an existing appointment becomes under a PUT body: each
field supplied with a value replaces the old one, every other field
keeps its prior value; the nullable `reason` column can only receive a
value, never null. -/
def applyBody (b : UpdateBody) (a : ApptRow) : ApptRow :=
  { appointment_id := a.appointment_id
    patient_id := (pyGet b.patient_id).getD a.patient_id
    doctor_id := (pyGet b.doctor_id).getD a.doctor_id
    appointment_date := (pyGet b.appointment_date).getD a.appointment_date
    reason := match pyGet b.reason with
      | some s => some s
      | none => a.reason }

theorem pyGet_stripNull {α : Type} (f : JField α) :
    pyGet (stripNull f) = pyGet f := by
  cases f <;> rfl

theorem buildSets_normalize (b : UpdateBody) :
    buildSets (normalizeBody b) = buildSets b := by
  simp [buildSets, normalizeBody, pyGet_stripNull]

/-- Applying the built SET clauses to a row, parameters consumed
positionally, is exactly the field-wise update `applyBody`. -/
theorem applySets_buildSets (b : UpdateBody) (a : ApptRow) :
    applySets (buildSets b).1 (buildSets b).2 a = some (applyBody b a) := by
  cases hp : pyGet b.patient_id <;> cases hd : pyGet b.doctor_id <;>
    cases ha : pyGet b.appointment_date <;> cases hr : pyGet b.reason <;>
    simp [buildSets, setClause, hp, hd, ha, hr, applySets, applyOne, applyBody]

theorem mapMOpt_of_forall {α β : Type} (f : α → Option β) (g : α → β)
    (h : ∀ a, f a = some (g a)) : ∀ l : List α, mapMOpt f l = some (l.map g) := by
  intro l
  induction l with
  | nil => rfl
  | cons x xs ih => simp [mapMOpt, h, ih]

/-- C10: a `PUT /appointments/{id}` body field that is JSON null is
treated exactly as an absent one (the handler factors through
`data.get`), so no field can be set to null; a body with nothing
supplied yields 400 `Nothing to update` and no change; and on the
success path only the supplied fields of the target record change —
every other field, every other row and every other table keep their
prior values. -/
theorem claim10_update_frame (db : DB) (aid : Int) (b : UpdateBody) :
    (update_appointment db aid (normalizeBody b) = update_appointment db aid b) ∧
    ((pyGet b.patient_id = none ∧ pyGet b.doctor_id = none ∧
      pyGet b.appointment_date = none ∧ pyGet b.reason = none) →
      update_appointment db aid b = (.fail 400 "Nothing to update", db)) ∧
    ((buildSets b).1 ≠ [] → countAppt db aid ≠ 0 →
      (∀ n, pyGet b.patient_id = some n → countPatient db n ≠ 0) →
      (∀ m, pyGet b.doctor_id = some m → countDoctor db m ≠ 0) →
      (update_appointment db aid b).2 =
        { db with appointments :=
            db.appointments.map fun a =>
              if a.appointment_id == aid then applyBody b a else a }) := by
  refine ⟨?_, ?_, ?_⟩
  · have e1 : buildSets (normalizeBody b) = buildSets b := buildSets_normalize b
    have e2 : pyGet (normalizeBody b).patient_id = pyGet b.patient_id := by
      simp [normalizeBody, pyGet_stripNull]
    have e3 : pyGet (normalizeBody b).doctor_id = pyGet b.doctor_id := by
      simp [normalizeBody, pyGet_stripNull]
    simp only [update_appointment, e1, e2, e3]
  · intro ⟨h1, h2, h3, h4⟩
    simp [update_appointment, buildSets, setClause, h1, h2, h3, h4]
  · intro hne h0 hpat hdoc
    have hmap : mapMOpt (fun a =>
        if a.appointment_id == aid
        then applySets (buildSets b).1 (buildSets b).2 a else some a)
        db.appointments =
        some (db.appointments.map fun a =>
          if a.appointment_id == aid then applyBody b a else a) := by
      apply mapMOpt_of_forall
      intro a
      by_cases hia : (a.appointment_id == aid) = true
      · simp [hia, applySets_buildSets]
      · simp [hia]
    cases hp : pyGet b.patient_id with
    | none =>
      cases hd : pyGet b.doctor_id with
      | none =>
        simp only [update_appointment, hp, hd]
        simp only [hmap]
        simp [hne, h0]
        split <;> rfl
      | some m =>
        have hcm := hdoc m hd
        simp only [update_appointment, hp, hd]
        simp only [hmap]
        simp [hne, h0, hcm]
        split <;> rfl
    | some n =>
      have hcn := hpat n hp
      cases hd : pyGet b.doctor_id with
      | none =>
        simp only [update_appointment, hp, hd]
        simp only [hmap]
        simp [hne, h0, hcn]
        split <;> rfl
      | some m =>
        have hcm := hdoc m hd
        simp only [update_appointment, hp, hd]
        simp only [hmap]
        simp [hne, h0, hcn, hcm]
        split <;> rfl

theorem claim10_witness :
    (update_appointment wDB 1
        (normalizeBody ⟨.null, .absent, .val "2025-03-01 10:00:00", .absent⟩) =
      update_appointment wDB 1 ⟨.null, .absent, .val "2025-03-01 10:00:00", .absent⟩) ∧
    (update_appointment wDB 1 ⟨.null, .null, .absent, .absent⟩ =
      (.fail 400 "Nothing to update", wDB)) ∧
    ((update_appointment wDB 1
        ⟨.null, .absent, .val "2025-03-01 10:00:00", .absent⟩).2 =
      { wDB with appointments :=
          wDB.appointments.map fun a =>
            if a.appointment_id == 1
            then applyBody ⟨.null, .absent, .val "2025-03-01 10:00:00", .absent⟩ a
            else a }) :=
  ⟨(claim10_update_frame wDB 1
      ⟨.null, .absent, .val "2025-03-01 10:00:00", .absent⟩).1,
   (claim10_update_frame wDB 1 ⟨.null, .null, .absent, .absent⟩).2.1
     ⟨rfl, rfl, rfl, rfl⟩,
   (claim10_update_frame wDB 1
       ⟨.null, .absent, .val "2025-03-01 10:00:00", .absent⟩).2.2
     (by decide) (by decide)
     (fun n hn => by simp [pyGet] at hn)
     (fun m hm => by simp [pyGet] at hm)⟩
